import Mathlib

/-!
Verification of the php2ir LLVM IR generator (`src/ir.rs`).

This file gives a shallow embedding of the IR generator of the php2ir
repository and proves the frozen specification claims about it.

Embedding conventions:
* Rust `u32` counters are `Nat` with arithmetic taken modulo `2^32`
  (`U32M` below); in particular the release-mode wrapping subtraction
  `var_counter - 1` of `IrGenerator::last_var` is modelled as
  `(var_counter + U32M - 1) % U32M`, so that reading the last value with a
  zero counter yields `4294967295`, exactly as the compiled Rust does.
* `HashMap` fields that the generator never touches are modelled as
  association lists.
* The `f64` payload of a float literal is modelled by its decimal rendering
  (a `String`): the generator performs no floating-point arithmetic, it only
  formats the value into the emitted instruction text.
* `log::warn!` / `log::info!` calls are no-ops and are dropped.
* The state record carries one ghost field, `alloc_trace`, recording in
  order the numeric identifier issued by every allocation from the shared
  value counter (`new_var` and `new_global_string`); it exists only to state
  the identifier-freshness claims and is written nowhere else.
* `generate_expression` and `generate_statement` textually inline the bodies
  of `generate_binary_op` / `generate_unary_op` / `generate_if_statement` /
  `generate_while_loop` (which in the source are separate mutually recursive
  methods); the standalone definitions of those four methods are given as
  well, and lemmas below prove the dispatch equations connecting them.
-/

/-- `2^32`, the modulus of the Rust `u32` counters. -/
def U32M : Nat := 4294967296

/-- PHP static types (`types.rs`, `enum Type`). -/
inductive Ty where
  | int
  | float
  | bool
  | string
  | array (elem : Ty)
  | assocArray (elem : Ty)
  | object (className : String)
  | null
  | function (params : List Ty) (ret : Ty)
  | union (members : List Ty)
  | generic (name : String) (args : List Ty)
  | unknown

/-- Class information held by the type context (`types.rs`, `ClassInfo`). -/
structure ClassInfo where
  name : String
  properties : List (String × Ty)
  methods : List (String × Ty)
  parent : Option String
  interfaces : List String

/-- Type context (`types.rs`, `TypeContext`); maps modelled as association lists. -/
structure TypeContext where
  types : List (String × Ty)
  vars : List (String × Ty)
  functions : List (String × Ty)
  classes : List (String × ClassInfo)

/-- `TypeContext::new()`. -/
def TypeContext.new : TypeContext :=
  { types := [], vars := [], functions := [], classes := [] }

/-- Compilation errors (`error.rs`, `enum CompileError`); payloads textual. -/
inductive CompileError where
  | io (msg : String)
  | parse (file : Option String) (message : String)
      (line : Option Nat) (column : Option Nat)
  | typeError (message : String) (location : Option (String × Nat × Nat))
  | irGeneration (msg : String)
  | llvmCompilation (msg : String)
  | linking (msg : String)
  | runtime (msg : String)
  | configuration (msg : String)
  | unsupported (msg : String)
  | internal (msg : String)
deriving Repr, DecidableEq

/-- Binary operators (`ast.rs`, `enum BinaryOperator`). -/
inductive BinaryOperator where
  | add | sub | mul | div | mod | pow | concat
  | equal | identical | notEqual | notIdentical
  | less | lessEqual | greater | greaterEqual | spaceship
  | andOp | orOp | xorOp
  | bitwiseAnd | bitwiseOr | bitwiseXor | shiftLeft | shiftRight
  | coalesce
deriving Repr, DecidableEq

/-- Unary operators (`ast.rs`, `enum UnaryOperator`). -/
inductive UnaryOperator where
  | plus | minus | not | bitwiseNot
  | preInc | preDec | postInc | postDec | errorSuppress
deriving Repr, DecidableEq

/-- Assignment operators (`ast.rs`, `enum AssignmentOperator`). -/
inductive AssignmentOperator where
  | assign | addAssign | subAssign | mulAssign | divAssign | modAssign
  | powAssign | concatAssign | bitwiseAndAssign | bitwiseOrAssign
  | bitwiseXorAssign | shiftLeftAssign | shiftRightAssign | coalesceAssign
deriving Repr, DecidableEq

/-- Include kinds (`ast.rs`, `enum IncludeKind`). -/
inductive IncludeKind where
  | include | includeOnce | require | requireOnce
deriving Repr, DecidableEq

/-- Use kinds (`ast.rs`, `enum UseKind`). -/
inductive UseKind where
  | normal | function | const
deriving Repr, DecidableEq

/-- Visibility (`ast.rs`, `enum Visibility`). -/
inductive Visibility where
  | vPublic | vProtected | vPrivate
deriving Repr, DecidableEq

mutual
/-- Literals (`ast.rs`, `enum Literal`); float payload is its rendering. -/
inductive Literal where
  | int (n : Int)
  | float (x : String)
  | str (s : String)
  | bool (b : Bool)
  | null
  | array (elements : List ArrayElement)

/-- Array elements (`ast.rs`, `struct ArrayElement`). -/
inductive ArrayElement where
  | mk (key : Option Expression) (value : Expression) (is_reference : Bool)

/-- Expressions (`ast.rs`, `enum Expression`). -/
inductive Expression where
  | literal (l : Literal)
  | var (name : String)
  | variableVariable (e : Expression)
  | binaryOp (left : Expression) (op : BinaryOperator) (right : Expression)
  | unaryOp (op : UnaryOperator) (e : Expression)
  | functionCall (name : Expression) (arguments : List Expression)
  | methodCall (object : Expression) (method : String)
      (arguments : List Expression)
  | propertyAccess (object : Expression) (property : String)
  | arrayAccess (array : Expression) (index : Expression)
  | assignment (target : Expression) (op : AssignmentOperator)
      (value : Expression)
  | ternary (condition : Expression) (true_expr : Expression)
      (false_expr : Expression)
  | nullCoalescing (left : Expression) (right : Expression)
  | cast (target_type : Ty) (e : Expression)
  | instanceOf (e : Expression) (cls : Expression)
  | newObject (cls : Expression) (arguments : List Expression)
  | clone (e : Expression)
  | includeExpr (kind : IncludeKind) (file : Expression)
  | yield (key : Option Expression) (value : Option Expression)
  | arrayExpr (elements : List ArrayElement)
  | list (vars : List Expression)
end

mutual
/-- Statements (`ast.rs`, `enum Statement`). -/
inductive Statement where
  | expression (e : Expression)
  | block (statements : List Statement)
  | ifStmt (condition : Expression) (then_branch : Statement)
      (else_branch : Option Statement)
  | whileStmt (condition : Expression) (body : Statement)
  | doWhile (body : Statement) (condition : Expression)
  | forStmt (init : List Expression) (condition : List Expression)
      (update : List Expression) (body : Statement)
  | foreach (array : Expression) (key : Option String) (value : String)
      (body : Statement)
  | switch (expression : Expression) (cases : List SwitchCase)
  | matchStmt (expression : Expression) (arms : List MatchArm)
  | tryStmt (try_block : Statement) (catch_blocks : List CatchBlock)
      (finally_block : Option Statement)
  | throw (e : Expression)
  | ret (e : Option Expression)
  | breakStmt (e : Option Expression)
  | continueStmt (e : Option Expression)
  | global (names : List String)
  | staticStmt (names : List String)
  | echo (expressions : List Expression)
  | print (e : Expression)
  | unset (es : List Expression)
  | isset (es : List Expression)
  | empty (e : Expression)
  | die (e : Option Expression)
  | declare (directives : List DeclareDirective) (body : Statement)

/-- Switch cases (`ast.rs`, `struct SwitchCase`). -/
inductive SwitchCase where
  | mk (condition : Option Expression) (statements : List Statement)

/-- Match arms (`ast.rs`, `struct MatchArm`). -/
inductive MatchArm where
  | mk (patterns : List Expression) (body : Statement)

/-- Catch blocks (`ast.rs`, `struct CatchBlock`). -/
inductive CatchBlock where
  | mk (types : List Ty) (variable_name : Option String) (body : Statement)

/-- Declare directives (`ast.rs`, `struct DeclareDirective`). -/
inductive DeclareDirective where
  | mk (name : String) (value : Expression)
end

/-- Parameters (`ast.rs`, `struct Parameter`). -/
structure Parameter where
  name : String
  typ : Option Ty
  default_value : Option Expression
  is_reference : Bool
  is_variadic : Bool

/-- Attributes (`ast.rs`, `struct Attribute`). -/
structure Attribute where
  name : String
  arguments : List Expression

/-- Function declarations (`ast.rs`, `struct FunctionDecl`). -/
structure FunctionDecl where
  name : String
  parameters : List Parameter
  return_type : Option Ty
  body : Statement
  attributes : List Attribute
  is_static : Bool
  visibility : Visibility

/-- Property declarations (`ast.rs`, `struct PropertyDecl`). -/
structure PropertyDecl where
  name : String
  typ : Option Ty
  default_value : Option Expression
  visibility : Visibility
  is_static : Bool
  is_readonly : Bool

/-- Constant declarations (`ast.rs`, `struct ConstantDecl`). -/
structure ConstantDecl where
  name : String
  value : Expression
  visibility : Visibility

/-- Class declarations (`ast.rs`, `struct ClassDecl`). -/
structure ClassDecl where
  name : String
  extendsName : Option String
  implements : List String
  properties : List PropertyDecl
  methods : List FunctionDecl
  constants : List ConstantDecl
  attributes : List Attribute
  is_abstract : Bool
  is_final : Bool
  is_trait : Bool
  is_interface : Bool
  is_enum : Bool

/-- Interface declarations (`ast.rs`, `struct InterfaceDecl`). -/
structure InterfaceDecl where
  name : String
  extendsList : List String
  constants : List ConstantDecl
  methods : List FunctionDecl

/-- Trait declarations (`ast.rs`, `struct TraitDecl`). -/
structure TraitDecl where
  name : String
  properties : List PropertyDecl
  methods : List FunctionDecl
  constants : List ConstantDecl

/-- Enum cases (`ast.rs`, `struct EnumCase`). -/
structure EnumCase where
  name : String
  value : Option Expression

/-- Enum declarations (`ast.rs`, `struct EnumDecl`). -/
structure EnumDecl where
  name : String
  backing_type : Option Ty
  cases : List EnumCase
  methods : List FunctionDecl

/-- Use clauses (`ast.rs`, `struct UseClause`). -/
structure UseClause where
  name : String
  aliasName : Option String

/-- Use declarations (`ast.rs`, `struct UseDecl`). -/
structure UseDecl where
  uses : List UseClause
  kind : UseKind

mutual
/-- AST nodes (`ast.rs`, `enum AstNode`). -/
inductive AstNode where
  | program (nodes : List AstNode)
  | expression (e : Expression)
  | statement (s : Statement)
  | function (decl : FunctionDecl)
  | classDecl (decl : ClassDecl)
  | interface (decl : InterfaceDecl)
  | traitDecl (decl : TraitDecl)
  | enumDecl (decl : EnumDecl)
  | namespaceDecl (decl : NamespaceDecl)
  | use (decl : UseDecl)
  | attributeNode (a : Attribute)

/-- Namespace declarations (`ast.rs`, `struct NamespaceDecl`). -/
inductive NamespaceDecl where
  | mk (name : Option String) (statements : List AstNode)
end

/-- Function metadata (`ir.rs`, `struct FunctionInfo`). -/
structure FunctionInfo where
  name : String
  return_type : Ty
  parameters : List (String × Ty × Bool)
  is_external : Bool

/-- Global metadata (`ir.rs`, `struct GlobalInfo`). -/
structure GlobalInfo where
  name : String
  typ : Ty
  value : Option String
  is_constant : Bool

/-- The generator state (`ir.rs`, `struct IrGenerator`), plus the ghost
allocation trace. -/
structure GenState where
  type_context : TypeContext
  current_function : Option String
  var_counter : Nat
  block_counter : Nat
  ir_code : String
  functions : List (String × FunctionInfo)
  globals : List (String × GlobalInfo)
  alloc_trace : List Nat

/-- `IrGenerator::new()` (the `Ok`-wrapped fresh state). -/
def init_state : GenState :=
  { type_context := TypeContext.new
    current_function := none
    var_counter := 0
    block_counter := 0
    ir_code := ""
    functions := []
    globals := []
    alloc_trace := [] }

/-- `IrGenerator::new()` returns `Ok(Self { .. })`. -/
def new_generator : Except CompileError GenState := Except.ok init_state

/-- `self.ir_code.push_str(s)`. -/
def emit (st : GenState) (s : String) : GenState :=
  { st with ir_code := st.ir_code ++ s }

/-- `IrGenerator::new_var`: increment the value counter, return `%<n>` for
the freshly issued number (the ghost trace records that number). -/
def new_var (st : GenState) : String × GenState :=
  let c := (st.var_counter + 1) % U32M
  let n := (c + U32M - 1) % U32M
  ("%" ++ toString n,
   { st with var_counter := c, alloc_trace := st.alloc_trace ++ [n] })

/-- `IrGenerator::last_var`: format `var_counter - 1` with `u32` wrapping
subtraction (release-mode Rust semantics). -/
def last_var (st : GenState) : String :=
  "%" ++ toString ((st.var_counter + U32M - 1) % U32M)

/-- `IrGenerator::new_block`. -/
def new_block (st : GenState) : String × GenState :=
  let c := (st.block_counter + 1) % U32M
  ("bb" ++ toString ((c + U32M - 1) % U32M), { st with block_counter := c })

/-- `IrGenerator::new_global_string`: the global name takes the current value
of the shared counter and the counter is incremented; the declaration line is
appended to the output (ghost trace records the issued number). -/
def new_global_string (st : GenState) (s : String) : String × GenState :=
  let global_name := "@.str." ++ toString st.var_counter
  let st1 := { st with
    var_counter := (st.var_counter + 1) % U32M
    alloc_trace := st.alloc_trace ++ [st.var_counter] }
  (global_name,
   emit st1 (global_name ++ " = private unnamed_addr constant [" ++
     toString (s.utf8ByteSize + 1) ++ " x i8] c\"" ++ s ++ "\\00\"\n"))

/-- `IrGenerator::llvm_type`. -/
def llvm_type : Ty → String
  | .int => "i64"
  | .float => "double"
  | .bool => "i1"
  | .string => "i8*"
  | .array _ => "i8*"
  | .object _ => "i8*"
  | .null => "i8*"
  | .unknown => "i8*"
  | _ => "i8*"

/-- `IrGenerator::generate_literal`. -/
def generate_literal (st : GenState) : Literal → GenState
  | .int n =>
    let (v, st1) := new_var st
    emit st1 ("  " ++ v ++ " = add i64 0, " ++ toString n ++ "\n")
  | .float x =>
    let (v, st1) := new_var st
    emit st1 ("  " ++ v ++ " = fadd double 0.0, " ++ x ++ "\n")
  | .str s =>
    let (v, st1) := new_var st
    let (global_name, st2) := new_global_string st1 s
    emit st2 ("  " ++ v ++ " = getelementptr [" ++
      toString (s.utf8ByteSize + 1) ++ " x i8], [" ++
      toString (s.utf8ByteSize + 1) ++ " x i8]* @" ++ global_name ++
      ", i32 0, i32 0\n")
  | .bool b =>
    let (v, st1) := new_var st
    emit st1 ("  " ++ v ++ " = add i1 0, " ++ (if b then "1" else "0") ++ "\n")
  | .null =>
    let (v, st1) := new_var st
    emit st1 ("  " ++ v ++ " = inttoptr i64 0 to i8*\n")
  | .array _ => st

/-- `IrGenerator::generate_variable_access` (unimplemented: warn only). -/
def generate_variable_access (st : GenState) (_name : String) : GenState := st

/-- `IrGenerator::generate_function_call` (unimplemented: warn only). -/
def generate_function_call (st : GenState) (_name : Expression)
    (_arguments : List Expression) : GenState := st

/-- The instruction line emitted by `IrGenerator::generate_binary_op` for a
given operator (body of its `match op`). -/
def binary_op_line (op : BinaryOperator) (result_var left_var right_var :
    String) : String :=
  match op with
  | .add => "  " ++ result_var ++ " = add i64 " ++ left_var ++ ", " ++
      right_var ++ "\n"
  | .sub => "  " ++ result_var ++ " = sub i64 " ++ left_var ++ ", " ++
      right_var ++ "\n"
  | .mul => "  " ++ result_var ++ " = mul i64 " ++ left_var ++ ", " ++
      right_var ++ "\n"
  | .div => "  " ++ result_var ++ " = sdiv i64 " ++ left_var ++ ", " ++
      right_var ++ "\n"
  | .mod => "  " ++ result_var ++ " = srem i64 " ++ left_var ++ ", " ++
      right_var ++ "\n"
  | .equal => "  " ++ result_var ++ " = icmp eq i64 " ++ left_var ++ ", " ++
      right_var ++ "\n"
  | .less => "  " ++ result_var ++ " = icmp slt i64 " ++ left_var ++ ", " ++
      right_var ++ "\n"
  | .greater => "  " ++ result_var ++ " = icmp sgt i64 " ++ left_var ++
      ", " ++ right_var ++ "\n"
  | _ => "  " ++ result_var ++ " = add i64 " ++ left_var ++ ", " ++
      right_var ++ "\n"

/-- The instruction line emitted by `IrGenerator::generate_unary_op` for a
given operator (body of its `match op`). -/
def unary_op_line (op : UnaryOperator) (result_var operand_var : String) :
    String :=
  match op with
  | .plus => "  " ++ result_var ++ " = add i64 0, " ++ operand_var ++ "\n"
  | .minus => "  " ++ result_var ++ " = sub i64 0, " ++ operand_var ++ "\n"
  | .not => "  " ++ result_var ++ " = icmp eq i1 " ++ operand_var ++ ", 0\n"
  | _ => "  " ++ result_var ++ " = add i64 0, " ++ operand_var ++ "\n"

/-- `IrGenerator::generate_expression`; the `BinaryOp`/`UnaryOp` arms inline
the bodies of `generate_binary_op` / `generate_unary_op` (the standalone
definitions below are proved equal to these arms). -/
def generate_expression (st : GenState) : Expression → GenState
  | .literal l => generate_literal st l
  | .var name => generate_variable_access st name
  | .binaryOp left op right =>
    let st1 := generate_expression st left
    let left_var := last_var st1
    let st2 := generate_expression st1 right
    let right_var := last_var st2
    let (result_var, st3) := new_var st2
    emit st3 (binary_op_line op result_var left_var right_var)
  | .unaryOp op e =>
    let st1 := generate_expression st e
    let operand_var := last_var st1
    let (result_var, st2) := new_var st1
    emit st2 (unary_op_line op result_var operand_var)
  | .functionCall name arguments => generate_function_call st name arguments
  | _ => st

/-- `IrGenerator::generate_binary_op` as in the source: lower left, read the
last value, lower right, read the last value, allocate the result, emit. -/
def generate_binary_op (st : GenState) (left : Expression)
    (op : BinaryOperator) (right : Expression) : GenState :=
  let st1 := generate_expression st left
  let left_var := last_var st1
  let st2 := generate_expression st1 right
  let right_var := last_var st2
  let (result_var, st3) := new_var st2
  emit st3 (binary_op_line op result_var left_var right_var)

/-- `IrGenerator::generate_unary_op` as in the source. -/
def generate_unary_op (st : GenState) (op : UnaryOperator)
    (e : Expression) : GenState :=
  let st1 := generate_expression st e
  let operand_var := last_var st1
  let (result_var, st2) := new_var st1
  emit st2 (unary_op_line op result_var operand_var)

/-- `IrGenerator::generate_return`. -/
def generate_return (st : GenState) : Option Expression → GenState
  | some e =>
    let st1 := generate_expression st e
    emit st1 ("  ret i64 " ++ last_var st1 ++ "\n")
  | none => emit st "  ret void\n"

/-- `IrGenerator::generate_echo`: per expression, lower it, read the last
value, emit one runtime print call. -/
def generate_echo (st : GenState) : List Expression → GenState
  | [] => st
  | e :: rest =>
    let st1 := generate_expression st e
    let st2 := emit st1 ("  call void @php_print(i8* " ++ last_var st1 ++
      ")\n")
    generate_echo st2 rest

mutual
/-- `IrGenerator::generate_statement`; the `If`/`While` arms inline the
bodies of `generate_if_statement` / `generate_while_loop` (the standalone
definitions below are proved equal to these arms). -/
def generate_statement (st : GenState) : Statement → GenState
  | .expression e => generate_expression st e
  | .block statements => generate_statement_list st statements
  | .ifStmt condition then_branch else_branch =>
    let (then_block, st1) := new_block st
    let (else_block, st2) := new_block st1
    let (merge_block, st3) := new_block st2
    let st4 := generate_expression st3 condition
    let cond_var := last_var st4
    let st5 := emit st4 ("  br i1 " ++ cond_var ++ ", label %" ++
      then_block ++ ", label %" ++ else_block ++ "\n")
    let st6 := emit st5 (then_block ++ ":\n")
    let st7 := generate_statement st6 then_branch
    let st8 := emit st7 ("  br label %" ++ merge_block ++ "\n")
    let st9 := emit st8 (else_block ++ ":\n")
    let st10 := match else_branch with
      | some else_stmt => generate_statement st9 else_stmt
      | none => st9
    let st11 := emit st10 ("  br label %" ++ merge_block ++ "\n")
    emit st11 (merge_block ++ ":\n")
  | .whileStmt condition body =>
    let (loop_header, st1) := new_block st
    let (loop_body, st2) := new_block st1
    let (loop_exit, st3) := new_block st2
    let st4 := emit st3 ("  br label %" ++ loop_header ++ "\n")
    let st5 := emit st4 (loop_header ++ ":\n")
    let st6 := generate_expression st5 condition
    let cond_var := last_var st6
    let st7 := emit st6 ("  br i1 " ++ cond_var ++ ", label %" ++
      loop_body ++ ", label %" ++ loop_exit ++ "\n")
    let st8 := emit st7 (loop_body ++ ":\n")
    let st9 := generate_statement st8 body
    let st10 := emit st9 ("  br label %" ++ loop_header ++ "\n")
    emit st10 (loop_exit ++ ":\n")
  | .ret e => generate_return st e
  | .echo expressions => generate_echo st expressions
  | _ => st

/-- The loop bodies of `Statement::Block` lowering and the like: lower each
statement in sequence. -/
def generate_statement_list (st : GenState) : List Statement → GenState
  | [] => st
  | s :: rest => generate_statement_list (generate_statement st s) rest
end

/-- `IrGenerator::generate_if_statement` as in the source: allocate the
three blocks first, then lower condition, branch, then-branch, else-branch,
merge label. -/
def generate_if_statement (st : GenState) (condition : Expression)
    (then_branch : Statement) (else_branch : Option Statement) : GenState :=
  let (then_block, st1) := new_block st
  let (else_block, st2) := new_block st1
  let (merge_block, st3) := new_block st2
  let st4 := generate_expression st3 condition
  let cond_var := last_var st4
  let st5 := emit st4 ("  br i1 " ++ cond_var ++ ", label %" ++
    then_block ++ ", label %" ++ else_block ++ "\n")
  let st6 := emit st5 (then_block ++ ":\n")
  let st7 := generate_statement st6 then_branch
  let st8 := emit st7 ("  br label %" ++ merge_block ++ "\n")
  let st9 := emit st8 (else_block ++ ":\n")
  let st10 := match else_branch with
    | some else_stmt => generate_statement st9 else_stmt
    | none => st9
  let st11 := emit st10 ("  br label %" ++ merge_block ++ "\n")
  emit st11 (merge_block ++ ":\n")

/-- `IrGenerator::generate_while_loop` as in the source. -/
def generate_while_loop (st : GenState) (condition : Expression)
    (body : Statement) : GenState :=
  let (loop_header, st1) := new_block st
  let (loop_body, st2) := new_block st1
  let (loop_exit, st3) := new_block st2
  let st4 := emit st3 ("  br label %" ++ loop_header ++ "\n")
  let st5 := emit st4 (loop_header ++ ":\n")
  let st6 := generate_expression st5 condition
  let cond_var := last_var st6
  let st7 := emit st6 ("  br i1 " ++ cond_var ++ ", label %" ++
    loop_body ++ ", label %" ++ loop_exit ++ "\n")
  let st8 := emit st7 (loop_body ++ ":\n")
  let st9 := generate_statement st8 body
  let st10 := emit st9 ("  br label %" ++ loop_header ++ "\n")
  emit st10 (loop_exit ++ ":\n")

/-- The parameter fragment `"{} %{}"` of `IrGenerator::generate_function`. -/
def param_fragment (p : Parameter) : String :=
  llvm_type (p.typ.getD Ty.unknown) ++ " %" ++ p.name

/-- `IrGenerator::generate_function`. -/
def generate_function (st : GenState) (func_decl : FunctionDecl) : GenState :=
  let return_type := llvm_type (func_decl.return_type.getD Ty.unknown)
  let param_list :=
    String.intercalate ", " (func_decl.parameters.map param_fragment)
  let st1 := emit st ("define " ++ return_type ++ " @" ++ func_decl.name ++
    "(" ++ param_list ++ ") \x7b\n")
  let st2 := { st1 with current_function := some func_decl.name }
  let st3 := generate_statement st2 func_decl.body
  let st4 :=
    if return_type != "void" then
      emit st3 ("  ret " ++ return_type ++ " undef\n")
    else st3
  let st5 := emit st4 ("\x7d\n\n")
  { st5 with current_function := none }

/-- `IrGenerator::generate_class` (unimplemented: warn only). -/
def generate_class (st : GenState) (_class_decl : ClassDecl) : GenState := st

mutual
/-- `IrGenerator::generate_node`. -/
def generate_node (st : GenState) : AstNode → GenState
  | .program statements => generate_node_list st statements
  | .function func_decl => generate_function st func_decl
  | .classDecl class_decl => generate_class st class_decl
  | .expression e => generate_expression st e
  | .statement s => generate_statement st s
  | _ => st

/-- The node loops of `AstNode::Program` lowering and of `generate`. -/
def generate_node_list (st : GenState) : List AstNode → GenState
  | [] => st
  | n :: rest => generate_node_list (generate_node st n) rest
end

/-- `IrGenerator::declare_runtime_functions`: the five runtime declarations. -/
def declare_runtime_functions (st : GenState) : GenState :=
  let st := emit st "declare void @php_init()\n"
  let st := emit st "declare void @php_cleanup()\n"
  let st := emit st "declare void @php_print(i8*)\n"
  let st := emit st "declare i8* @php_malloc(i64)\n"
  emit st "declare void @php_free(i8*)\n\n"

/-- `IrGenerator::generate_module_header`: three header lines, a blank line,
then the runtime declarations. -/
def generate_module_header (st : GenState) : GenState :=
  let st := emit st "; ModuleID = \x27php2ir\x27\n"
  let st := emit st "source_filename = \"php2ir\"\n"
  let st := emit st "target datalayout = \"e-m:e-p270:32:32-p271:32:32-p272:64:64-i64:64-f80:128-n8:16:32:64-S128\"\n"
  let st := emit st "target triple = \"x86_64-pc-linux-gnu\"\n\n"
  declare_runtime_functions st

/-- `IrGenerator::generate_runtime_functions`: the `@main` entry point. -/
def generate_runtime_functions (st : GenState) : GenState :=
  let st := emit st "define i32 @main(i32 %argc, i8** %argv) \x7b\n"
  let st := emit st "  call void @php_init()\n"
  let st := emit st "  call void @php_cleanup()\n"
  let st := emit st "  ret i32 0\n"
  emit st "\x7d\n\n"

/-- `IrGenerator::generate_module_footer` (no final cleanup). -/
def generate_module_footer (st : GenState) : GenState := st

/-- `IrGenerator::generate`, as the effect on the generator state: reset the
output buffer and both counters (and the ghost trace), emit the module
header, lower every AST node, emit the runtime `@main`, emit the footer. -/
def generate (st : GenState) (ast : List AstNode) : GenState :=
  let st := { st with
    ir_code := ""
    var_counter := 0
    block_counter := 0
    alloc_trace := [] }
  let st := generate_module_header st
  let st := generate_node_list st ast
  let st := generate_runtime_functions st
  generate_module_footer st

/-- The value `IrGenerator::generate` returns: `Ok(self.ir_code.clone())`;
no code path of the generator constructs an `Err`. -/
def generate_result (st : GenState) (ast : List AstNode) :
    Except CompileError String :=
  Except.ok (generate st ast).ir_code

/-- The operators for which `generate_binary_op` has a dedicated arm; every
other operator falls into its wildcard fallback arm. -/
def binary_op_handled : BinaryOperator → Bool
  | .add | .sub | .mul | .div | .mod | .equal | .less | .greater => true
  | _ => false

/-- The statement kinds with a lowering rule in `generate_statement`; every
other kind falls into its warn-and-skip wildcard arm. -/
def statement_handled : Statement → Bool
  | .expression _ | .block _ | .ifStmt _ _ _ | .whileStmt _ _
  | .ret _ | .echo _ => true
  | _ => false

/-- The node kinds with a lowering rule in `generate_node`; every other kind
falls into its warn-and-skip wildcard arm. -/
def node_handled : AstNode → Bool
  | .program _ | .function _ | .classDecl _ | .expression _
  | .statement _ => true
  | _ => false

/-- The fixed module header (`generate_module_header`, first four lines). -/
def module_header_text : String :=
  "; ModuleID = \x27php2ir\x27\n" ++
  "source_filename = \"php2ir\"\n" ++
  "target datalayout = \"e-m:e-p270:32:32-p271:32:32-p272:64:64-i64:64-f80:128-n8:16:32:64-S128\"\n" ++
  "target triple = \"x86_64-pc-linux-gnu\"\n\n"

/-- The five fixed runtime declarations (`declare_runtime_functions`). -/
def runtime_declarations_text : String :=
  "declare void @php_init()\n" ++
  "declare void @php_cleanup()\n" ++
  "declare void @php_print(i8*)\n" ++
  "declare i8* @php_malloc(i64)\n" ++
  "declare void @php_free(i8*)\n\n"

/-- The fixed `@main` entry point (`generate_runtime_functions`). -/
def main_function_text : String :=
  "define i32 @main(i32 %argc, i8** %argv) \x7b\n" ++
  "  call void @php_init()\n" ++
  "  call void @php_cleanup()\n" ++
  "  ret i32 0\n" ++
  "\x7d\n\n"

/-- Ghost bookkeeping: the identifiers issued by `k` consecutive allocations
when the shared value counter starts at `c`. -/
def traceFrom (c k : Nat) : List Nat :=
  (List.range k).map (fun i => (c + i) % U32M)

/-- The observable effect of one generator call on the state: the output
buffer is only appended to; the function map, global map and type context
are untouched; the current-function marker is either untouched or cleared;
and some number `k` of identifiers is allocated sequentially from the shared
value counter. -/
def GenStep (st st' : GenState) : Prop :=
  (∃ d, st'.ir_code = st.ir_code ++ d) ∧
  st'.functions = st.functions ∧
  st'.globals = st.globals ∧
  st'.type_context = st.type_context ∧
  (st'.current_function = st.current_function ∨
    st'.current_function = none) ∧
  ∃ k, st.var_counter < U32M →
    st'.var_counter = (st.var_counter + k) % U32M ∧
    st'.alloc_trace = st.alloc_trace ++ traceFrom st.var_counter k

/-- `GenStep` without the current-function clause: used while reasoning
inside `generate_function`, which deliberately sets and later clears the
current-function marker. -/
def GenStepData (st st' : GenState) : Prop :=
  (∃ d, st'.ir_code = st.ir_code ++ d) ∧
  st'.functions = st.functions ∧
  st'.globals = st.globals ∧
  st'.type_context = st.type_context ∧
  ∃ k, st.var_counter < U32M →
    st'.var_counter = (st.var_counter + k) % U32M ∧
    st'.alloc_trace = st.alloc_trace ++ traceFrom st.var_counter k

/-- The four state fields the lowering code reads (value counter, block
counter, output buffer, ghost trace); every lowering step is determined by
them, since the remaining fields are never read. -/
def core (st : GenState) : Nat × Nat × String × List Nat :=
  (st.var_counter, st.block_counter, st.ir_code, st.alloc_trace)

/-- A two-node program with a string literal and an integer literal, used to
witness the allocation-trace claims. -/
def demo_ast : List AstNode :=
  [AstNode.expression (Expression.literal (Literal.str "hi")),
   AstNode.expression (Expression.literal (Literal.int 5))]

/-- An `echo` whose sole operand is an unimplemented expression kind (an
array literal), so that the statement lowering reads the last value while
the value counter is still zero. -/
def echo_array_ast : List AstNode :=
  [AstNode.statement (Statement.echo [Expression.literal (Literal.array [])])]

/-- A small `if` statement with concrete operands for witnesses. -/
def demo_if_condition : Expression := Expression.literal (Literal.bool true)

/-- Then-branch used by the `if`-statement witness. -/
def demo_if_then : Statement :=
  Statement.ret (some (Expression.literal (Literal.int 1)))


/-! ## Basic lemmas about the allocator arithmetic and `GenStep` -/

theorem U32M_pos : 0 < U32M := by norm_num [U32M]

theorem wrap_succ_pred (c : Nat) (h : c < U32M) :
    ((c + 1) % U32M + U32M - 1) % U32M = c := by
  simp only [U32M] at *
  omega

theorem traceFrom_zero (c : Nat) : traceFrom c 0 = [] := by
  simp [traceFrom]

theorem traceFrom_one (c : Nat) (h : c < U32M) : traceFrom c 1 = [c] := by
  have h1 : List.range 1 = [0] := rfl
  simp [traceFrom, h1, Nat.mod_eq_of_lt h]

theorem traceFrom_add (c k₁ k₂ : Nat) :
    traceFrom c (k₁ + k₂) =
      traceFrom c k₁ ++ traceFrom ((c + k₁) % U32M) k₂ := by
  unfold traceFrom
  rw [List.range_add, List.map_append, List.map_map]
  congr 1
  have h : ((fun i => (c + i) % U32M) ∘ (fun i => k₁ + i)) =
      fun i => ((c + k₁) % U32M + i) % U32M := by
    funext i
    simp only [Function.comp]
    rw [Nat.mod_add_mod, Nat.add_assoc]
  rw [h]

theorem genStep_refl (st : GenState) : GenStep st st := by
  refine ⟨⟨"", (String.append_empty _).symm⟩, rfl, rfl, rfl, Or.inl rfl,
    ⟨0, fun h => ⟨?_, ?_⟩⟩⟩
  · simp [Nat.mod_eq_of_lt h]
  · simp [traceFrom_zero]

theorem genStep_trans {a b c : GenState} (h₁ : GenStep a b)
    (h₂ : GenStep b c) : GenStep a c := by
  obtain ⟨⟨d₁, hd₁⟩, hf₁, hg₁, ht₁, hc₁, k₁, hk₁⟩ := h₁
  obtain ⟨⟨d₂, hd₂⟩, hf₂, hg₂, ht₂, hc₂, k₂, hk₂⟩ := h₂
  refine ⟨⟨d₁ ++ d₂, by rw [hd₂, hd₁, String.append_assoc]⟩,
    hf₂.trans hf₁, hg₂.trans hg₁, ht₂.trans ht₁, ?_, ⟨k₁ + k₂, ?_⟩⟩
  · rcases hc₂ with h | h
    · rw [h]; exact hc₁
    · exact Or.inr h
  · intro hlt
    obtain ⟨hv₁, htr₁⟩ := hk₁ hlt
    have hblt : b.var_counter < U32M := by
      rw [hv₁]; exact Nat.mod_lt _ U32M_pos
    obtain ⟨hv₂, htr₂⟩ := hk₂ hblt
    constructor
    · rw [hv₂, hv₁, Nat.mod_add_mod, Nat.add_assoc]
    · rw [htr₂, htr₁, hv₁, traceFrom_add, List.append_assoc]

theorem genStep_emit (st : GenState) (s : String) :
    GenStep st (emit st s) := by
  refine ⟨⟨s, rfl⟩, rfl, rfl, rfl, Or.inl rfl, ⟨0, fun h => ⟨?_, ?_⟩⟩⟩
  · simp [emit, Nat.mod_eq_of_lt h]
  · simp [emit, traceFrom_zero]

theorem genStep_new_var (st : GenState) : GenStep st (new_var st).2 := by
  refine ⟨⟨"", (String.append_empty _).symm⟩, rfl, rfl, rfl, Or.inl rfl,
    ⟨1, fun h => ⟨rfl, ?_⟩⟩⟩
  simp [new_var, traceFrom_one _ h, wrap_succ_pred _ h]

theorem genStep_new_global_string (st : GenState) (s : String) :
    GenStep st (new_global_string st s).2 := by
  refine ⟨⟨_, rfl⟩, rfl, rfl, rfl, Or.inl rfl,
    ⟨1, fun h => ⟨rfl, ?_⟩⟩⟩
  simp [new_global_string, emit, traceFrom_one _ h]

theorem genStep_generate_literal (st : GenState) (l : Literal) :
    GenStep st (generate_literal st l) := by
  cases l with
  | int n => exact genStep_trans (genStep_new_var st) (genStep_emit _ _)
  | float x => exact genStep_trans (genStep_new_var st) (genStep_emit _ _)
  | str s =>
    exact genStep_trans (genStep_new_var st)
      (genStep_trans (genStep_new_global_string _ s) (genStep_emit _ _))
  | bool b => exact genStep_trans (genStep_new_var st) (genStep_emit _ _)
  | null => exact genStep_trans (genStep_new_var st) (genStep_emit _ _)
  | array es => exact genStep_refl st

theorem genStep_expr_aux : ∀ (n : Nat) (e : Expression), sizeOf e ≤ n →
    ∀ st, GenStep st (generate_expression st e) := by
  intro n
  induction n with
  | zero =>
    intro e he
    exact absurd he (by cases e <;> simp)
  | succ n ih =>
    intro e he st
    cases e with
    | literal l => exact genStep_generate_literal st l
    | var name => exact genStep_refl st
    | binaryOp l op r =>
      have hl : sizeOf l ≤ n := by simp at he; omega
      have hr : sizeOf r ≤ n := by simp at he; omega
      exact genStep_trans (ih l hl st)
        (genStep_trans (ih r hr _)
          (genStep_trans (genStep_new_var _) (genStep_emit _ _)))
    | unaryOp op e1 =>
      have h1 : sizeOf e1 ≤ n := by simp at he; omega
      exact genStep_trans (ih e1 h1 st)
        (genStep_trans (genStep_new_var _) (genStep_emit _ _))
    | functionCall name args => exact genStep_refl st
    | variableVariable e1 => exact genStep_refl st
    | methodCall o m args => exact genStep_refl st
    | propertyAccess o p => exact genStep_refl st
    | arrayAccess a i => exact genStep_refl st
    | assignment t op v => exact genStep_refl st
    | ternary c te fe => exact genStep_refl st
    | nullCoalescing a b => exact genStep_refl st
    | cast t e1 => exact genStep_refl st
    | instanceOf e1 c => exact genStep_refl st
    | newObject c args => exact genStep_refl st
    | clone e1 => exact genStep_refl st
    | includeExpr k f => exact genStep_refl st
    | yield k v => exact genStep_refl st
    | arrayExpr es => exact genStep_refl st
    | list vs => exact genStep_refl st

theorem genStep_generate_expression (st : GenState) (e : Expression) :
    GenStep st (generate_expression st e) :=
  genStep_expr_aux (sizeOf e) e le_rfl st

theorem genStep_new_block (st : GenState) : GenStep st (new_block st).2 := by
  refine ⟨⟨"", (String.append_empty _).symm⟩, rfl, rfl, rfl, Or.inl rfl,
    ⟨0, fun h => ⟨?_, ?_⟩⟩⟩
  · simp [new_block, Nat.mod_eq_of_lt h]
  · simp [new_block, traceFrom_zero]

theorem genStep_generate_return (st : GenState) (e : Option Expression) :
    GenStep st (generate_return st e) := by
  cases e with
  | some e1 =>
    exact genStep_trans (genStep_generate_expression st e1) (genStep_emit _ _)
  | none => exact genStep_emit st _

theorem genStep_generate_echo : ∀ (es : List Expression) (st : GenState),
    GenStep st (generate_echo st es) := by
  intro es
  induction es with
  | nil => exact fun st => genStep_refl st
  | cons e rest ih =>
    intro st
    exact genStep_trans (genStep_generate_expression st e)
      (genStep_trans (genStep_emit _ _) (ih _))

theorem genStep_stmt_aux : ∀ (n : Nat),
    (∀ s : Statement, sizeOf s ≤ n → ∀ st,
      GenStep st (generate_statement st s)) ∧
    (∀ l : List Statement, sizeOf l ≤ n → ∀ st,
      GenStep st (generate_statement_list st l)) := by
  intro n
  induction n with
  | zero =>
    constructor
    · intro s hs
      exact absurd hs (by cases s <;> simp)
    · intro l hl
      exact absurd hl (by cases l <;> simp)
  | succ n ih =>
    constructor
    · intro s hs st
      cases s with
      | expression e => exact genStep_generate_expression st e
      | block stmts =>
        have h1 : sizeOf stmts ≤ n := by simp at hs; omega
        exact (ih.2) stmts h1 st
      | ifStmt c t e =>
        have ht : sizeOf t ≤ n := by simp at hs; omega
        cases e with
        | some es =>
          have hes : sizeOf es ≤ n := by simp at hs; omega
          exact genStep_trans (genStep_new_block st)
            (genStep_trans (genStep_new_block _)
            (genStep_trans (genStep_new_block _)
            (genStep_trans (genStep_generate_expression _ c)
            (genStep_trans (genStep_emit _ _)
            (genStep_trans (genStep_emit _ _)
            (genStep_trans (ih.1 t ht _)
            (genStep_trans (genStep_emit _ _)
            (genStep_trans (genStep_emit _ _)
            (genStep_trans (ih.1 es hes _)
            (genStep_trans (genStep_emit _ _) (genStep_emit _ _)))))))))))
        | none =>
          exact genStep_trans (genStep_new_block st)
            (genStep_trans (genStep_new_block _)
            (genStep_trans (genStep_new_block _)
            (genStep_trans (genStep_generate_expression _ c)
            (genStep_trans (genStep_emit _ _)
            (genStep_trans (genStep_emit _ _)
            (genStep_trans (ih.1 t ht _)
            (genStep_trans (genStep_emit _ _)
            (genStep_trans (genStep_emit _ _)
            (genStep_trans (genStep_emit _ _) (genStep_emit _ _))))))))))
      | whileStmt c b =>
        have hb : sizeOf b ≤ n := by simp at hs; omega
        exact genStep_trans (genStep_new_block st)
          (genStep_trans (genStep_new_block _)
          (genStep_trans (genStep_new_block _)
          (genStep_trans (genStep_emit _ _)
          (genStep_trans (genStep_emit _ _)
          (genStep_trans (genStep_generate_expression _ c)
          (genStep_trans (genStep_emit _ _)
          (genStep_trans (genStep_emit _ _)
          (genStep_trans (ih.1 b hb _)
          (genStep_trans (genStep_emit _ _) (genStep_emit _ _))))))))))
      | ret e => exact genStep_generate_return st e
      | echo es => exact genStep_generate_echo es st
      | doWhile b c => exact genStep_refl st
      | forStmt i c u b => exact genStep_refl st
      | foreach a k v b => exact genStep_refl st
      | switch e cs => exact genStep_refl st
      | matchStmt e arms => exact genStep_refl st
      | tryStmt t cbs f => exact genStep_refl st
      | throw e => exact genStep_refl st
      | breakStmt e => exact genStep_refl st
      | continueStmt e => exact genStep_refl st
      | global ns => exact genStep_refl st
      | staticStmt ns => exact genStep_refl st
      | print e => exact genStep_refl st
      | unset es => exact genStep_refl st
      | isset es => exact genStep_refl st
      | empty e => exact genStep_refl st
      | die e => exact genStep_refl st
      | declare ds b => exact genStep_refl st
    · intro l hl st
      cases l with
      | nil => exact genStep_refl st
      | cons s rest =>
        have hs : sizeOf s ≤ n := by simp at hl; omega
        have hrest : sizeOf rest ≤ n := by simp at hl; omega
        exact genStep_trans (ih.1 s hs st) (ih.2 rest hrest _)

theorem genStep_generate_statement (st : GenState) (s : Statement) :
    GenStep st (generate_statement st s) :=
  (genStep_stmt_aux (sizeOf s)).1 s le_rfl st

theorem genStep_generate_statement_list (st : GenState)
    (l : List Statement) : GenStep st (generate_statement_list st l) :=
  (genStep_stmt_aux (sizeOf l)).2 l le_rfl st

theorem GenStep.data {a b : GenState} (h : GenStep a b) : GenStepData a b :=
  ⟨h.1, h.2.1, h.2.2.1, h.2.2.2.1, h.2.2.2.2.2⟩

theorem genStepData_trans {a b c : GenState} (h₁ : GenStepData a b)
    (h₂ : GenStepData b c) : GenStepData a c := by
  obtain ⟨⟨d₁, hd₁⟩, hf₁, hg₁, ht₁, k₁, hk₁⟩ := h₁
  obtain ⟨⟨d₂, hd₂⟩, hf₂, hg₂, ht₂, k₂, hk₂⟩ := h₂
  refine ⟨⟨d₁ ++ d₂, by rw [hd₂, hd₁, String.append_assoc]⟩,
    hf₂.trans hf₁, hg₂.trans hg₁, ht₂.trans ht₁, ⟨k₁ + k₂, ?_⟩⟩
  intro hlt
  obtain ⟨hv₁, htr₁⟩ := hk₁ hlt
  have hblt : b.var_counter < U32M := by
    rw [hv₁]; exact Nat.mod_lt _ U32M_pos
  obtain ⟨hv₂, htr₂⟩ := hk₂ hblt
  constructor
  · rw [hv₂, hv₁, Nat.mod_add_mod, Nat.add_assoc]
  · rw [htr₂, htr₁, hv₁, traceFrom_add, List.append_assoc]

theorem llvm_type_ne_void (t : Ty) : (llvm_type t != "void") = true := by
  cases t <;> rfl

theorem genStep_generate_function (st : GenState) (fd : FunctionDecl) :
    GenStep st (generate_function st fd) := by
  simp only [generate_function, llvm_type_ne_void, if_true]
  have h1 : GenStepData st
      (emit st ("define " ++ llvm_type (fd.return_type.getD Ty.unknown) ++
        " @" ++ fd.name ++ "(" ++
        String.intercalate ", " (fd.parameters.map param_fragment) ++
        ") \x7b\n")) :=
    (genStep_emit _ _).data
  have h2 : GenStepData st
      (generate_statement
        { emit st ("define " ++ llvm_type (fd.return_type.getD Ty.unknown) ++
            " @" ++ fd.name ++ "(" ++
            String.intercalate ", " (fd.parameters.map param_fragment) ++
            ") \x7b\n") with current_function := some fd.name }
        fd.body) :=
    genStepData_trans h1 (genStep_generate_statement _ fd.body).data
  have h3 : GenStepData st
      (emit (emit (generate_statement
        { emit st ("define " ++ llvm_type (fd.return_type.getD Ty.unknown) ++
            " @" ++ fd.name ++ "(" ++
            String.intercalate ", " (fd.parameters.map param_fragment) ++
            ") \x7b\n") with current_function := some fd.name } fd.body)
        ("  ret " ++ llvm_type (fd.return_type.getD Ty.unknown) ++
          " undef\n")) "\x7d\n\n") :=
    genStepData_trans h2
      (genStepData_trans (genStep_emit _ _).data (genStep_emit _ _).data)
  exact ⟨h3.1, h3.2.1, h3.2.2.1, h3.2.2.2.1, Or.inr rfl, h3.2.2.2.2⟩

theorem genStep_generate_class (st : GenState) (cd : ClassDecl) :
    GenStep st (generate_class st cd) := genStep_refl st

theorem genStep_node_aux : ∀ (n : Nat),
    (∀ node : AstNode, sizeOf node ≤ n → ∀ st,
      GenStep st (generate_node st node)) ∧
    (∀ l : List AstNode, sizeOf l ≤ n → ∀ st,
      GenStep st (generate_node_list st l)) := by
  intro n
  induction n with
  | zero =>
    constructor
    · intro node h
      exact absurd h (by cases node <;> simp)
    · intro l h
      exact absurd h (by cases l <;> simp)
  | succ n ih =>
    constructor
    · intro node h st
      cases node with
      | program stmts =>
        have h1 : sizeOf stmts ≤ n := by simp at h; omega
        exact ih.2 stmts h1 st
      | function fd => exact genStep_generate_function st fd
      | classDecl cd => exact genStep_generate_class st cd
      | expression e => exact genStep_generate_expression st e
      | statement s => exact genStep_generate_statement st s
      | interface d => exact genStep_refl st
      | traitDecl d => exact genStep_refl st
      | enumDecl d => exact genStep_refl st
      | namespaceDecl d => exact genStep_refl st
      | use d => exact genStep_refl st
      | attributeNode a => exact genStep_refl st
    · intro l h st
      cases l with
      | nil => exact genStep_refl st
      | cons nd rest =>
        have h1 : sizeOf nd ≤ n := by simp at h; omega
        have h2 : sizeOf rest ≤ n := by simp at h; omega
        exact genStep_trans (ih.1 nd h1 st) (ih.2 rest h2 _)

theorem genStep_generate_node (st : GenState) (node : AstNode) :
    GenStep st (generate_node st node) :=
  (genStep_node_aux (sizeOf node)).1 node le_rfl st

theorem genStep_generate_node_list (st : GenState) (l : List AstNode) :
    GenStep st (generate_node_list st l) :=
  (genStep_node_aux (sizeOf l)).2 l le_rfl st

theorem genStep_generate_module_header (st : GenState) :
    GenStep st (generate_module_header st) := by
  unfold generate_module_header declare_runtime_functions
  exact genStep_trans (genStep_emit _ _)
    (genStep_trans (genStep_emit _ _)
    (genStep_trans (genStep_emit _ _)
    (genStep_trans (genStep_emit _ _)
    (genStep_trans (genStep_emit _ _)
    (genStep_trans (genStep_emit _ _)
    (genStep_trans (genStep_emit _ _)
    (genStep_trans (genStep_emit _ _) (genStep_emit _ _))))))))

theorem genStep_generate_runtime_functions (st : GenState) :
    GenStep st (generate_runtime_functions st) := by
  unfold generate_runtime_functions
  exact genStep_trans (genStep_emit _ _)
    (genStep_trans (genStep_emit _ _)
    (genStep_trans (genStep_emit _ _)
    (genStep_trans (genStep_emit _ _) (genStep_emit _ _))))

/-! ## Core congruence: lowering depends only on the four core fields -/

theorem core_congr_emit {s t : GenState} (h : core s = core t) (a : String) :
    core (emit s a) = core (emit t a) := by
  simp only [core, emit, Prod.mk.injEq] at h ⊢
  exact ⟨h.1, h.2.1, by rw [h.2.2.1], h.2.2.2⟩

theorem last_var_congr {s t : GenState} (h : core s = core t) :
    last_var s = last_var t := by
  simp only [core, Prod.mk.injEq] at h
  simp [last_var, h.1]

theorem new_var_congr {s t : GenState} (h : core s = core t) :
    (new_var s).1 = (new_var t).1 ∧ core (new_var s).2 = core (new_var t).2 := by
  simp only [core, Prod.mk.injEq] at h ⊢
  simp [new_var, h.1, h.2.1, h.2.2.1, h.2.2.2]

theorem new_block_congr {s t : GenState} (h : core s = core t) :
    (new_block s).1 = (new_block t).1 ∧
      core (new_block s).2 = core (new_block t).2 := by
  simp only [core, Prod.mk.injEq] at h ⊢
  simp [new_block, h.1, h.2.1, h.2.2.1, h.2.2.2]

theorem new_global_string_congr {s t : GenState} (h : core s = core t)
    (str : String) :
    (new_global_string s str).1 = (new_global_string t str).1 ∧
      core (new_global_string s str).2 = core (new_global_string t str).2 := by
  simp only [core, Prod.mk.injEq] at h ⊢
  simp [new_global_string, emit, h.1, h.2.1, h.2.2.1, h.2.2.2]

theorem core_congr_generate_literal {s t : GenState} (h : core s = core t)
    (l : Literal) : core (generate_literal s l) = core (generate_literal t l) := by
  cases l with
  | int n =>
    obtain ⟨hv, hc⟩ := new_var_congr h
    simpa [generate_literal, hv] using core_congr_emit hc _
  | float x =>
    obtain ⟨hv, hc⟩ := new_var_congr h
    simpa [generate_literal, hv] using core_congr_emit hc _
  | str str =>
    obtain ⟨hv, hc⟩ := new_var_congr h
    obtain ⟨hg, hc2⟩ := new_global_string_congr hc str
    simpa [generate_literal, hv, hg] using core_congr_emit hc2 _
  | bool b =>
    obtain ⟨hv, hc⟩ := new_var_congr h
    simpa [generate_literal, hv] using core_congr_emit hc _
  | null =>
    obtain ⟨hv, hc⟩ := new_var_congr h
    simpa [generate_literal, hv] using core_congr_emit hc _
  | array es => simpa [generate_literal] using h

theorem core_congr_expr_aux : ∀ (n : Nat) (e : Expression), sizeOf e ≤ n →
    ∀ {s t : GenState}, core s = core t →
    core (generate_expression s e) = core (generate_expression t e) := by
  intro n
  induction n with
  | zero =>
    intro e he
    exact absurd he (by cases e <;> simp)
  | succ n ih =>
    intro e he s t h
    cases e with
    | literal l =>
      exact core_congr_generate_literal h l
    | binaryOp l op r =>
      have hl : sizeOf l ≤ n := by simp at he; omega
      have hr : sizeOf r ≤ n := by simp at he; omega
      have h1 := ih l hl h
      have hlv := last_var_congr h1
      have h2 := ih r hr h1
      have hrv := last_var_congr h2
      obtain ⟨hv, h3⟩ := new_var_congr h2
      simpa [generate_expression, hlv, hrv, hv] using core_congr_emit h3 _
    | unaryOp op e1 =>
      have h1s : sizeOf e1 ≤ n := by simp at he; omega
      have h1 := ih e1 h1s h
      have hov := last_var_congr h1
      obtain ⟨hv, h2⟩ := new_var_congr h1
      simpa [generate_expression, hov, hv] using core_congr_emit h2 _
    | var name => simpa [generate_expression, generate_variable_access] using h
    | functionCall nm args =>
      simpa [generate_expression, generate_function_call] using h
    | variableVariable e1 => simpa [generate_expression] using h
    | methodCall o m args => simpa [generate_expression] using h
    | propertyAccess o p => simpa [generate_expression] using h
    | arrayAccess a i => simpa [generate_expression] using h
    | assignment tg op v => simpa [generate_expression] using h
    | ternary c te fe => simpa [generate_expression] using h
    | nullCoalescing a b => simpa [generate_expression] using h
    | cast ty e1 => simpa [generate_expression] using h
    | instanceOf e1 c => simpa [generate_expression] using h
    | newObject c args => simpa [generate_expression] using h
    | clone e1 => simpa [generate_expression] using h
    | includeExpr k f => simpa [generate_expression] using h
    | yield k v => simpa [generate_expression] using h
    | arrayExpr es => simpa [generate_expression] using h
    | list vs => simpa [generate_expression] using h

theorem core_congr_generate_expression {s t : GenState}
    (h : core s = core t) (e : Expression) :
    core (generate_expression s e) = core (generate_expression t e) :=
  core_congr_expr_aux (sizeOf e) e le_rfl h

theorem core_congr_generate_return {s t : GenState} (h : core s = core t)
    (e : Option Expression) :
    core (generate_return s e) = core (generate_return t e) := by
  cases e with
  | some e1 =>
    have h1 := core_congr_generate_expression h e1
    have hlv := last_var_congr h1
    simpa [generate_return, hlv] using core_congr_emit h1 _
  | none => simpa [generate_return] using core_congr_emit h _

theorem core_congr_generate_echo : ∀ (es : List Expression)
    {s t : GenState}, core s = core t →
    core (generate_echo s es) = core (generate_echo t es) := by
  intro es
  induction es with
  | nil => intro s t h; simpa [generate_echo] using h
  | cons e rest ih =>
    intro s t h
    have h1 := core_congr_generate_expression h e
    have hlv := last_var_congr h1
    have h2 := core_congr_emit h1
      ("  call void @php_print(i8* " ++ last_var (generate_expression t e) ++ ")\n")
    simp only [generate_echo, hlv]
    exact ih h2

theorem core_congr_emit2 {s t : GenState} (h : core s = core t)
    {a b : String} (hab : a = b) : core (emit s a) = core (emit t b) := by
  subst hab
  exact core_congr_emit h a

theorem core_components {s t : GenState} (h : core s = core t) :
    s.var_counter = t.var_counter ∧ s.block_counter = t.block_counter ∧
    s.ir_code = t.ir_code ∧ s.alloc_trace = t.alloc_trace := by
  simpa [core, Prod.mk.injEq] using h

theorem core_congr_stmt_aux : ∀ (n : Nat),
    (∀ s1 : Statement, sizeOf s1 ≤ n → ∀ {s t : GenState}, core s = core t →
      core (generate_statement s s1) = core (generate_statement t s1)) ∧
    (∀ l : List Statement, sizeOf l ≤ n → ∀ {s t : GenState}, core s = core t →
      core (generate_statement_list s l) = core (generate_statement_list t l)) := by
  intro n
  induction n with
  | zero =>
    constructor
    · intro s1 hs
      exact absurd hs (by cases s1 <;> simp)
    · intro l hl
      exact absurd hl (by cases l <;> simp)
  | succ n ih =>
    constructor
    · intro s1 hs s t h
      cases s1 with
      | expression e => exact core_congr_generate_expression h e
      | block stmts =>
        have h1 : sizeOf stmts ≤ n := by simp at hs; omega
        exact ih.2 stmts h1 h
      | ifStmt c tb eb =>
        have htb : sizeOf tb ≤ n := by simp at hs; omega
        obtain ⟨hvar, hblock, hir, htrace⟩ := core_components h
        have hrec : core {s with block_counter :=
            (((s.block_counter + 1) % U32M + 1) % U32M + 1) % U32M} =
          core {t with block_counter :=
            (((t.block_counter + 1) % U32M + 1) % U32M + 1) % U32M} := by
          simp [core, hvar, hblock, hir, htrace]
        have hce := core_congr_generate_expression hrec c
        have hlv2 := last_var_congr hce
        cases eb with
        | some es =>
          have hes : sizeOf es ≤ n := by simp at hs; omega
          apply core_congr_emit2
          apply core_congr_emit2
          apply ih.1 es hes
          apply core_congr_emit2
          apply core_congr_emit2
          apply ih.1 tb htb
          apply core_congr_emit2
          apply core_congr_emit2
          exact hce
          all_goals (try rw [hlv2])
          all_goals simp only [hblock]
        | none =>
          apply core_congr_emit2
          apply core_congr_emit2
          apply core_congr_emit2
          apply core_congr_emit2
          apply ih.1 tb htb
          apply core_congr_emit2
          apply core_congr_emit2
          exact hce
          all_goals (try rw [hlv2])
          all_goals simp only [hblock]
      | whileStmt c b =>
        have hb : sizeOf b ≤ n := by simp at hs; omega
        obtain ⟨hvar, hblock, hir, htrace⟩ := core_components h
        have hwstate : core (emit (emit {s with block_counter :=
              (((s.block_counter + 1) % U32M + 1) % U32M + 1) % U32M}
            ("  br label %" ++
              ("bb" ++ toString (((s.block_counter + 1) % U32M + U32M - 1) % U32M)) ++ "\n"))
            (("bb" ++ toString (((s.block_counter + 1) % U32M + U32M - 1) % U32M)) ++ ":\n")) =
          core (emit (emit {t with block_counter :=
              (((t.block_counter + 1) % U32M + 1) % U32M + 1) % U32M}
            ("  br label %" ++
              ("bb" ++ toString (((t.block_counter + 1) % U32M + U32M - 1) % U32M)) ++ "\n"))
            (("bb" ++ toString (((t.block_counter + 1) % U32M + U32M - 1) % U32M)) ++ ":\n")) := by
          simp [core, emit, hvar, hblock, hir, htrace]
        have hce := core_congr_generate_expression hwstate c
        have hlvw := last_var_congr hce
        apply core_congr_emit2
        apply core_congr_emit2
        apply ih.1 b hb
        apply core_congr_emit2
        apply core_congr_emit2
        exact hce
        all_goals (try rw [hlvw])
        all_goals simp only [hblock]
      | ret e => exact core_congr_generate_return h e
      | echo es => exact core_congr_generate_echo es h
      | doWhile b c => simpa [generate_statement] using h
      | forStmt i c u b => simpa [generate_statement] using h
      | foreach a k v b => simpa [generate_statement] using h
      | switch e cs => simpa [generate_statement] using h
      | matchStmt e arms => simpa [generate_statement] using h
      | tryStmt tb cbs f => simpa [generate_statement] using h
      | throw e => simpa [generate_statement] using h
      | breakStmt e => simpa [generate_statement] using h
      | continueStmt e => simpa [generate_statement] using h
      | global ns => simpa [generate_statement] using h
      | staticStmt ns => simpa [generate_statement] using h
      | print e => simpa [generate_statement] using h
      | unset es => simpa [generate_statement] using h
      | isset es => simpa [generate_statement] using h
      | empty e => simpa [generate_statement] using h
      | die e => simpa [generate_statement] using h
      | declare ds b => simpa [generate_statement] using h
    · intro l hl s t h
      cases l with
      | nil => simpa [generate_statement_list] using h
      | cons s1 rest =>
        have h1 : sizeOf s1 ≤ n := by simp at hl; omega
        have h2 : sizeOf rest ≤ n := by simp at hl; omega
        have hh := ih.1 s1 h1 h
        exact ih.2 rest h2 hh

theorem core_congr_stmt (st : Statement) {s t : GenState} (h : core s = core t) :
    core (generate_statement s st) = core (generate_statement t st) :=
  (core_congr_stmt_aux (sizeOf st)).1 st le_rfl h

theorem core_set_cf (x : GenState) (c : Option String) :
    core { x with current_function := c } = core x := rfl

theorem core_congr_generate_function {s t : GenState} (h : core s = core t)
    (fd : FunctionDecl) :
    core (generate_function s fd) = core (generate_function t fd) := by
  simp only [generate_function, llvm_type_ne_void, if_true]
  simp only [core_set_cf]
  apply core_congr_emit
  apply core_congr_emit
  apply core_congr_stmt fd.body
  simp only [core_set_cf]
  apply core_congr_emit
  exact h

theorem core_congr_node_aux : ∀ (n : Nat),
    (∀ node : AstNode, sizeOf node ≤ n → ∀ {s t : GenState}, core s = core t →
      core (generate_node s node) = core (generate_node t node)) ∧
    (∀ l : List AstNode, sizeOf l ≤ n → ∀ {s t : GenState}, core s = core t →
      core (generate_node_list s l) = core (generate_node_list t l)) := by
  intro n
  induction n with
  | zero =>
    constructor
    · intro node hn
      exact absurd hn (by cases node <;> simp)
    · intro l hl
      exact absurd hl (by cases l <;> simp)
  | succ n ih =>
    constructor
    · intro node hn s t h
      cases node with
      | program stmts =>
        have h1 : sizeOf stmts ≤ n := by simp at hn; omega
        exact ih.2 stmts h1 h
      | function fd => exact core_congr_generate_function h fd
      | classDecl cd => simpa [generate_node, generate_class] using h
      | expression e => exact core_congr_generate_expression h e
      | statement s1 => exact core_congr_stmt s1 h
      | interface d => simpa [generate_node] using h
      | traitDecl d => simpa [generate_node] using h
      | enumDecl d => simpa [generate_node] using h
      | namespaceDecl d => simpa [generate_node] using h
      | use d => simpa [generate_node] using h
      | attributeNode a => simpa [generate_node] using h
    · intro l hl s t h
      cases l with
      | nil => simpa [generate_node_list] using h
      | cons nd rest =>
        have h1 : sizeOf nd ≤ n := by simp at hl; omega
        have h2 : sizeOf rest ≤ n := by simp at hl; omega
        exact ih.2 rest h2 (ih.1 nd h1 h)

theorem core_congr_generate_node_list (l : List AstNode) {s t : GenState}
    (h : core s = core t) :
    core (generate_node_list s l) = core (generate_node_list t l) :=
  (core_congr_node_aux (sizeOf l)).2 l le_rfl h

theorem core_congr_generate_module_header {s t : GenState}
    (h : core s = core t) :
    core (generate_module_header s) = core (generate_module_header t) := by
  unfold generate_module_header declare_runtime_functions
  exact core_congr_emit (core_congr_emit (core_congr_emit (core_congr_emit
    (core_congr_emit (core_congr_emit (core_congr_emit (core_congr_emit
      (core_congr_emit h _) _) _) _) _) _) _) _) _

theorem core_congr_generate_runtime_functions {s t : GenState}
    (h : core s = core t) :
    core (generate_runtime_functions s) = core (generate_runtime_functions t) := by
  unfold generate_runtime_functions
  exact core_congr_emit (core_congr_emit (core_congr_emit (core_congr_emit
    (core_congr_emit h _) _) _) _) _

theorem core_congr_generate (s t : GenState) (ast : List AstNode) :
    core (generate s ast) = core (generate t ast) := by
  unfold generate generate_module_footer
  apply core_congr_generate_runtime_functions
  apply core_congr_generate_node_list
  apply core_congr_generate_module_header
  rfl

/-! ## Dispatch equations and output-shape lemmas -/

theorem generate_expression_binary_op (st : GenState) (l : Expression)
    (op : BinaryOperator) (r : Expression) :
    generate_expression st (.binaryOp l op r) = generate_binary_op st l op r := by
  simp [generate_expression, generate_binary_op]

theorem generate_expression_unary_op (st : GenState) (op : UnaryOperator)
    (e : Expression) :
    generate_expression st (.unaryOp op e) = generate_unary_op st op e := by
  simp [generate_expression, generate_unary_op]

theorem generate_statement_if (st : GenState) (c : Expression)
    (tb : Statement) (eb : Option Statement) :
    generate_statement st (.ifStmt c tb eb) =
      generate_if_statement st c tb eb := by
  cases eb <;> simp [generate_statement, generate_if_statement, new_block]

theorem generate_statement_while (st : GenState) (c : Expression)
    (b : Statement) :
    generate_statement st (.whileStmt c b) = generate_while_loop st c b := by
  simp [generate_statement, generate_while_loop, new_block]

theorem generate_module_header_ir (st : GenState) :
    (generate_module_header st).ir_code =
      st.ir_code ++ (module_header_text ++ runtime_declarations_text) := by
  simp [generate_module_header, declare_runtime_functions, emit,
    module_header_text, runtime_declarations_text, String.append_assoc]

theorem generate_runtime_functions_ir (st : GenState) :
    (generate_runtime_functions st).ir_code =
      st.ir_code ++ main_function_text := by
  simp [generate_runtime_functions, emit, main_function_text,
    String.append_assoc]

theorem empty_append_str (s : String) : "" ++ s = s := by
  cases s with
  | mk data => rfl

theorem traceFrom_length (c k : Nat) : (traceFrom c k).length = k := by
  simp [traceFrom]

theorem traceFrom_zero_eq_range (k : Nat) (h : k ≤ U32M) :
    traceFrom 0 k = List.range k := by
  unfold traceFrom
  have hcongr : ∀ i ∈ List.range k, (0 + i) % U32M = i := by
    intro i hi
    rw [Nat.zero_add,
      Nat.mod_eq_of_lt (lt_of_lt_of_le (List.mem_range.mp hi) h)]
  rw [List.map_congr_left hcongr, List.map_id']

theorem genStep_generate_reset (st : GenState) (ast : List AstNode) :
    GenStep { st with
        ir_code := ""
        var_counter := 0
        block_counter := 0
        alloc_trace := [] } (generate st ast) := by
  unfold generate generate_module_footer
  exact genStep_trans (genStep_generate_module_header _)
    (genStep_trans (genStep_generate_node_list _ ast)
      (genStep_generate_runtime_functions _))

theorem generate_alloc_trace_exists (st : GenState) (ast : List AstNode) :
    ∃ k, (generate st ast).alloc_trace = traceFrom 0 k ∧
      (generate st ast).var_counter = k % U32M := by
  obtain ⟨_, _, _, _, _, k, hk⟩ := genStep_generate_reset st ast
  obtain ⟨hv, htr⟩ := hk (by norm_num [U32M])
  refine ⟨k, ?_, ?_⟩
  · simpa using htr
  · simpa using hv

theorem generate_ir_decomposition (st : GenState) (ast : List AstNode) :
    ∃ body, (generate st ast).ir_code =
      module_header_text ++ runtime_declarations_text ++ body ++
        main_function_text := by
  obtain ⟨d, hd⟩ := (genStep_generate_node_list
    (generate_module_header { st with
      ir_code := ""
      var_counter := 0
      block_counter := 0
      alloc_trace := [] }) ast).1
  refine ⟨d, ?_⟩
  show (generate_runtime_functions _).ir_code = _
  rw [generate_runtime_functions_ir, hd, generate_module_header_ir,
    empty_append_str]

/-! ## The claims -/

/-- C1: value identifiers are issued starting at `%0` and increase by exactly
1 per allocation; within one `generate` call no identifier is ever reused,
even across functions, and global string names `@.str.<n>` share the same
counter. Formally: the ghost trace of all numeric identifiers issued by the
shared value counter during `generate` (by `new_var` and
`new_global_string`, in order) is exactly `0, 1, 2, …`; in particular the
`k`-th allocation receives number `k - 1` and the trace has no duplicates.
The hypothesis bounds the number of allocations by `2^32`, where the Rust
`u32` counter would overflow. -/
theorem C1_value_ids_sequential (st : GenState) (ast : List AstNode)
    (h : (generate st ast).alloc_trace.length ≤ U32M) :
    (generate st ast).alloc_trace =
      List.range (generate st ast).alloc_trace.length ∧
    (generate st ast).alloc_trace.Nodup := by
  obtain ⟨k, htr, _⟩ := generate_alloc_trace_exists st ast
  have hk : k ≤ U32M := by rwa [htr, traceFrom_length] at h
  rw [htr, traceFrom_length, traceFrom_zero_eq_range k hk]
  exact ⟨rfl, List.nodup_range k⟩

set_option maxRecDepth 20000 in
/-- Witness for C1 on a program with a string literal and an integer
literal: the three allocations (the string value `%0`, its global
`@.str.1`, and the integer value `%2`) receive numbers `0, 1, 2`. -/
theorem C1_value_ids_sequential_witness :
    (generate init_state demo_ast).alloc_trace.length ≤ U32M ∧
    ((generate init_state demo_ast).alloc_trace =
      List.range (generate init_state demo_ast).alloc_trace.length ∧
     (generate init_state demo_ast).alloc_trace.Nodup) :=
  ⟨by decide, C1_value_ids_sequential init_state demo_ast (by decide)⟩

set_option maxRecDepth 20000 in
/-- C2 (divergence witness): lowering `echo` of an expression kind that
allocates nothing (an array literal) reads `lastValue()` with the value
counter still at zero; the generator does NOT signal an internal error: it
returns `Ok` and silently emits the wrapped identifier `%4294967295`
(`0u32 - 1` in release-mode Rust). -/
theorem C2_underflow_eval :
    generate_result init_state echo_array_ast =
      Except.ok (module_header_text ++ runtime_declarations_text ++
        "  call void @php_print(i8* %4294967295)\n" ++ main_function_text) := by
  rfl

/-- C3: generation is best-effort per node. `generate` always returns `Ok`
(no code path constructs an error); an unrecognized binary operator behaves
exactly like `Add` (the integer-add fallback instruction); unsupported
statement and node kinds are skipped (lowered to the identity on the
state). -/
theorem C3_best_effort :
    (∀ (st : GenState) (ast : List AstNode), ∃ s,
        generate_result st ast = Except.ok s) ∧
    (∀ (st : GenState) (l : Expression) (op : BinaryOperator)
        (r : Expression), binary_op_handled op = false →
        generate_binary_op st l op r =
          generate_binary_op st l BinaryOperator.add r) ∧
    (∀ (st : GenState) (s1 : Statement), statement_handled s1 = false →
        generate_statement st s1 = st) ∧
    (∀ (st : GenState) (node : AstNode), node_handled node = false →
        generate_node st node = st) := by
  refine ⟨fun st ast => ⟨_, rfl⟩, ?_, ?_, ?_⟩
  · intro st l op r h
    cases op <;> first
      | rfl
      | (exfalso; simp [binary_op_handled] at h)
  · intro st s1 h
    cases s1 <;> first
      | rfl
      | (exfalso; simp [statement_handled] at h)
  · intro st node h
    cases node <;> first
      | rfl
      | (exfalso; simp [node_handled] at h)

set_option maxRecDepth 20000 in
/-- Witness for C3: a concrete `Ok` result; `**` falls back to the `Add`
lowering; a `throw` statement and a `use` declaration are skipped. -/
theorem C3_best_effort_witness :
    (∃ s, generate_result init_state demo_ast = Except.ok s) ∧
    (binary_op_handled BinaryOperator.pow = false ∧
      generate_binary_op init_state (Expression.literal (Literal.int 1))
          BinaryOperator.pow (Expression.literal (Literal.int 2)) =
        generate_binary_op init_state (Expression.literal (Literal.int 1))
          BinaryOperator.add (Expression.literal (Literal.int 2))) ∧
    (statement_handled (Statement.throw (Expression.literal Literal.null)) =
        false ∧
      generate_statement init_state
        (Statement.throw (Expression.literal Literal.null)) = init_state) ∧
    (node_handled (AstNode.use ⟨[], UseKind.normal⟩) = false ∧
      generate_node init_state (AstNode.use ⟨[], UseKind.normal⟩) =
        init_state) :=
  ⟨C3_best_effort.1 init_state demo_ast,
   ⟨by decide, C3_best_effort.2.1 init_state _ _ _ (by decide)⟩,
   ⟨by decide, C3_best_effort.2.2.1 init_state _ (by decide)⟩,
   ⟨by decide, C3_best_effort.2.2.2 init_state _ (by decide)⟩⟩

/-- C4: an `if` statement allocates its three blocks (then `bb<B>`, else
`bb<B+1>`, merge `bb<B+2>`, where `B` is the current block counter) before
emitting anything, and then emits exactly: condition lowering, conditional
branch on the condition's last value, then-label, then-body, branch to
merge, else-label, else-body if present, branch to merge, merge-label —
with no special case for `return` inside a branch. The hypothesis keeps the
three block allocations below the `u32` wrap. -/
theorem C4_if_statement_shape (st : GenState) (c : Expression)
    (tb : Statement) (eb : Option Statement)
    (h : st.block_counter + 3 < U32M) :
    generate_if_statement st c tb eb =
      (let thenL := "bb" ++ toString st.block_counter
      let elseL := "bb" ++ toString (st.block_counter + 1)
      let mergeL := "bb" ++ toString (st.block_counter + 2)
      let st3 := { st with block_counter := st.block_counter + 3 }
      let st4 := generate_expression st3 c
      let st5 := emit st4 ("  br i1 " ++ last_var st4 ++ ", label %" ++
        thenL ++ ", label %" ++ elseL ++ "\n")
      let st6 := emit st5 (thenL ++ ":\n")
      let st7 := generate_statement st6 tb
      let st8 := emit st7 ("  br label %" ++ mergeL ++ "\n")
      let st9 := emit st8 (elseL ++ ":\n")
      let st10 := match eb with
        | some es => generate_statement st9 es
        | none => st9
      let st11 := emit st10 ("  br label %" ++ mergeL ++ "\n")
      emit st11 (mergeL ++ ":\n")) := by
  have hW : U32M = 4294967296 := rfl
  rw [hW] at h
  have e1 : (st.block_counter + 1) % U32M = st.block_counter + 1 := by
    rw [hW]; omega
  have e2 : (st.block_counter + 1 + 1) % U32M = st.block_counter + 2 := by
    rw [hW]; omega
  have e3 : (st.block_counter + 2 + 1) % U32M = st.block_counter + 3 := by
    rw [hW]; omega
  have e4 : (st.block_counter + 1 + U32M - 1) % U32M = st.block_counter := by
    rw [hW]; omega
  have e5 : (st.block_counter + 2 + U32M - 1) % U32M =
      st.block_counter + 1 := by
    rw [hW]; omega
  have e6 : (st.block_counter + 3 + U32M - 1) % U32M =
      st.block_counter + 2 := by
    rw [hW]; omega
  cases eb <;>
    simp only [generate_if_statement, new_block, e1, e2, e3, e4, e5, e6]

set_option maxRecDepth 20000 in
/-- Witness for C4 on `if (true) { return 1; }` from a fresh state: blocks
`bb0`, `bb1`, `bb2` and the exact emitted sequence, including the branch to
merge that follows the `return`. -/
theorem C4_if_statement_shape_witness :
    init_state.block_counter + 3 < U32M ∧
    (generate_if_statement init_state demo_if_condition demo_if_then
        none).ir_code =
      "  %0 = add i1 0, 1\n  br i1 %0, label %bb0, label %bb1\nbb0:\n" ++
      "  %1 = add i64 0, 1\n  ret i64 %1\n  br label %bb2\nbb1:\n" ++
      "  br label %bb2\nbb2:\n" :=
  ⟨by decide, by
    rw [C4_if_statement_shape init_state demo_if_condition demo_if_then none
      (by decide)]
    rfl⟩

set_option maxRecDepth 20000 in
/-- C5: for every input AST — including the empty one — the output of
`generate` begins with the fixed three-line module header (plus blank line)
followed by exactly the five runtime declarations, and ends with the
generated entry point `define i32 @main(i32 %argc, i8** %argv)` that calls
`@php_init`, then `@php_cleanup`, then returns 0 (`main_function_text`);
the empty program produces exactly header, declarations and `@main` with
nothing in between. -/
theorem C5_module_shape :
    (∀ (st : GenState) (ast : List AstNode), ∃ body,
        (generate st ast).ir_code =
          module_header_text ++ runtime_declarations_text ++ body ++
            main_function_text) ∧
    (∀ st : GenState, (generate st []).ir_code =
        module_header_text ++ runtime_declarations_text ++
          main_function_text) :=
  ⟨generate_ir_decomposition, fun _ => rfl⟩

/-- C6: `generate` is idempotent on a reused generator instance: running it
a second time on the state left by the first run produces a byte-identical
`Ok` result, because the output buffer and both counters are reset at the
start of each invocation and no other state read by lowering survives. -/
theorem C6_generate_idempotent (st : GenState) (ast : List AstNode) :
    generate_result (generate st ast) ast = generate_result st ast := by
  unfold generate_result
  have h := core_congr_generate (generate st ast) st ast
  exact congrArg (fun q => Except.ok q.2.2.1) h

/-- C7: a `return` with an expression lowers the expression and emits
`ret i64 <last value>` with the 64-bit type fixed — the lowering reads
nothing that records the enclosing function's declared return type (the
state `st` is arbitrary, in particular `current_function`); a bare `return`
emits `ret void`. -/
theorem C7_return_lowering (st : GenState) :
    (∀ e : Expression,
        generate_return st (some e) =
          emit (generate_expression st e)
            ("  ret i64 " ++ last_var (generate_expression st e) ++ "\n")) ∧
    generate_return st none = emit st "  ret void\n" ∧
    (∀ e : Option Expression,
        generate_statement st (Statement.ret e) = generate_return st e) :=
  ⟨fun _ => rfl, rfl, fun _ => rfl⟩

/-- C8: literal lowering shapes. An integer literal `n` emits exactly one
instruction `%<c> = add i64 0, n` (where `c` is the current value counter);
`true`/`false` emit the 1-bit values `1`/`0` via `add i1 0, _`; `null`
emits a null `i8*` pointer via `inttoptr i64 0 to i8*`; a float literal
emits `fadd double 0.0, x` against zero. The hypothesis keeps the one
counter increment below the `u32` wrap. -/
theorem C8_literal_shapes (st : GenState) (h : st.var_counter < U32M) :
    (∀ n : Int, (generate_literal st (.int n)).ir_code =
        st.ir_code ++ ("  " ++ ("%" ++ toString st.var_counter) ++
          " = add i64 0, " ++ toString n ++ "\n")) ∧
    ((generate_literal st (.bool true)).ir_code =
        st.ir_code ++ ("  " ++ ("%" ++ toString st.var_counter) ++
          " = add i1 0, " ++ "1" ++ "\n")) ∧
    ((generate_literal st (.bool false)).ir_code =
        st.ir_code ++ ("  " ++ ("%" ++ toString st.var_counter) ++
          " = add i1 0, " ++ "0" ++ "\n")) ∧
    ((generate_literal st .null).ir_code =
        st.ir_code ++ ("  " ++ ("%" ++ toString st.var_counter) ++
          " = inttoptr i64 0 to i8*\n")) ∧
    (∀ x : String, (generate_literal st (.float x)).ir_code =
        st.ir_code ++ ("  " ++ ("%" ++ toString st.var_counter) ++
          " = fadd double 0.0, " ++ x ++ "\n")) := by
  refine ⟨fun n => ?_, ?_, ?_, ?_, fun x => ?_⟩ <;>
    simp [generate_literal, new_var, emit, wrap_succ_pred _ h]

/-- Witness for C8 at a fresh state: the integer literal `42` and the
boolean `true`. -/
theorem C8_literal_shapes_witness :
    init_state.var_counter < U32M ∧
    (generate_literal init_state (.int 42)).ir_code =
      init_state.ir_code ++ ("  " ++ ("%" ++ toString init_state.var_counter)
        ++ " = add i64 0, " ++ toString (42 : Int) ++ "\n") ∧
    (generate_literal init_state (.bool true)).ir_code =
      init_state.ir_code ++ ("  " ++ ("%" ++ toString init_state.var_counter)
        ++ " = add i1 0, " ++ "1" ++ "\n") :=
  ⟨by decide, (C8_literal_shapes init_state (by decide)).1 42,
    (C8_literal_shapes init_state (by decide)).2.1⟩

/-- C9: the type-to-IR mapping is total and never produces `"void"` —
every `Ty` lowers to one of `i64`, `double`, `i1`, `i8*` — so the
not-`void` guard in `generate_function` always holds and every emitted
function definition, whatever its declared return type, ends with a
trailing `ret <type> undef` immediately before its closing brace. -/
theorem C9_llvm_type_total_ret_undef :
    (∀ t : Ty, llvm_type t = "i64" ∨ llvm_type t = "double" ∨
        llvm_type t = "i1" ∨ llvm_type t = "i8*") ∧
    (∀ (st : GenState) (fd : FunctionDecl), ∃ body,
        (generate_function st fd).ir_code =
          st.ir_code ++
            ("define " ++ llvm_type (fd.return_type.getD Ty.unknown) ++
              " @" ++ fd.name ++ "(" ++
              String.intercalate ", " (fd.parameters.map param_fragment) ++
              ") \x7b\n") ++
            body ++
            ("  ret " ++ llvm_type (fd.return_type.getD Ty.unknown) ++
              " undef\n") ++
            "\x7d\n\n") := by
  constructor
  · intro t
    cases t <;> simp [llvm_type]
  · intro st fd
    obtain ⟨body, hbody⟩ := (genStep_generate_statement
      { emit st ("define " ++ llvm_type (fd.return_type.getD Ty.unknown) ++
          " @" ++ fd.name ++ "(" ++
          String.intercalate ", " (fd.parameters.map param_fragment) ++
          ") \x7b\n") with current_function := some fd.name } fd.body).1
    refine ⟨body, ?_⟩
    simp only [generate_function, llvm_type_ne_void, if_true]
    show ((_ : GenState).ir_code ++ _) ++ _ = _
    rw [hbody]
    rfl

/-- C10: `generate` never modifies the function map, the global map or the
type context, and if the current-function marker was clear before the call
it is clear again on return (only the counters, the output buffer and the
ghost trace are touched otherwise). -/
theorem C10_generate_frame (st : GenState) (ast : List AstNode) :
    (generate st ast).functions = st.functions ∧
    (generate st ast).globals = st.globals ∧
    (generate st ast).type_context = st.type_context ∧
    (st.current_function = none →
      (generate st ast).current_function = none) := by
  obtain ⟨_, hf, hg, ht, hc, _⟩ := genStep_generate_reset st ast
  refine ⟨hf, hg, ht, fun h0 => ?_⟩
  rcases hc with h | h
  · rw [h]; exact h0
  · exact h

set_option maxRecDepth 20000 in
/-- Witness for C10 at a fresh state (whose current-function marker is
`none`) on the two-node demo program. -/
theorem C10_generate_frame_witness :
    (generate init_state demo_ast).functions = init_state.functions ∧
    (generate init_state demo_ast).globals = init_state.globals ∧
    (generate init_state demo_ast).type_context = init_state.type_context ∧
    (generate init_state demo_ast).current_function = none :=
  ⟨(C10_generate_frame init_state demo_ast).1,
   (C10_generate_frame init_state demo_ast).2.1,
   (C10_generate_frame init_state demo_ast).2.2.1,
   (C10_generate_frame init_state demo_ast).2.2.2 rfl⟩
